import Mathlib

/-!
Shallow embedding of `src/ffi/accessors.c`, the version-stable field-accessor
shim over the FFmpeg structs, together with proofs about its accessors.

Modelling conventions:
* C pointers are modelled as `Nat` (0 is the NULL pointer) or as `Option`
  values where only NULL-ness matters (`none` = NULL).
* The preprocessor version dispatch (`#if LIBAVCODEC_VERSION_MAJOR >= 60`,
  ...) is modelled by an explicit `Gen` parameter on every accessor whose body
  differs between struct-layout generations; the compile-time selection of
  that parameter from the library version constants is modelled separately
  (`ctxChannelGen`, `frameChannelGen`, `frameKeyGen`).
* Reads whose definedness depends on array bounds return `Option`: `none`
  models an out-of-bounds (undefined-behaviour) access, `some v` a defined
  read of `v`.
* External FFmpeg library primitives (channel-layout construction, refcount
  manipulation) are not part of the repository; they are modelled from the
  library's documented contracts, each marked in its doc comment.
-/

/-- Struct-layout generation for a versioned field: `current` is the
structured `AVChannelLayout` / flags-word representation, `legacy` the old
count+bitmask / dedicated-field representation. -/
inductive Gen where
  | current : Gen
  | legacy : Gen
deriving DecidableEq, Repr

/-- AVChannelOrder (external library enum); only the distinction between
`native` and the other orders matters to the accessors. -/
inductive ChOrder where
  | native : ChOrder
  | unspec : ChOrder
  | custom : ChOrder
  | ambisonic : ChOrder
deriving DecidableEq, Repr

/-- AVChannelLayout (external library struct, current generation): an order
tag, a channel count, and the `u.mask` native bitmask. -/
structure AVChannelLayout where
  order : ChOrder
  nb_channels : Int
  mask : Nat
deriving DecidableEq, Repr

/-- AVRational: numerator / denominator pair. -/
structure AVRational where
  num : Int
  den : Int
deriving DecidableEq, Repr

/-- AV_NUM_DATA_POINTERS: fixed length of the `data` / `linesize` arrays. -/
def AV_NUM_DATA_POINTERS : Nat := 8

/-- AV_FRAME_FLAG_KEY: the key-frame bit in the frame `flags` word. -/
def AV_FRAME_FLAG_KEY : Nat := 2

/-- AV_INPUT_BUFFER_PADDING_SIZE: padding appended to extradata allocations. -/
def AV_INPUT_BUFFER_PADDING_SIZE : Nat := 64

/-- AVERROR(ENOMEM): the negative allocation-failure status. -/
def AVERROR_ENOMEM : Int := -12

/-- AVERROR(EINVAL): the negative invalid-argument status. -/
def AVERROR_EINVAL : Int := -22

/-- Population count of the low 64 bits; models av_popcount64 and with it
av_get_channel_layout_nb_channels of the external library. -/
def popcount64 (n : Nat) : Nat :=
  (List.range 64).countP (fun i => n.testBit i)

/-- Canonical default channel mask per channel count; models the first
matching entry of the external library's channel_layout_map table
(mono, stereo, 2.1, 4.0, 5.0(back), 5.1(back), 6.1, 7.1), 0 when the
count has no canonical layout. -/
def defaultChannelMask (nb : Int) : Nat :=
  if nb = 1 then 0x4
  else if nb = 2 then 0x3
  else if nb = 3 then 0xB
  else if nb = 4 then 0x107
  else if nb = 5 then 0x37
  else if nb = 6 then 0x3F
  else if nb = 7 then 0x70F
  else if nb = 8 then 0x63F
  else 0

/-- Models the external library's av_channel_layout_default: copy the first
channel_layout_map entry with the requested channel count, or, when none
matches, an unspec-order layout carrying only the count (mask zeroed). -/
def av_channel_layout_default (nb : Int) : AVChannelLayout :=
  if defaultChannelMask nb ≠ 0 then
    { order := ChOrder.native, nb_channels := nb, mask := defaultChannelMask nb }
  else
    { order := ChOrder.unspec, nb_channels := nb, mask := 0 }

/-- Models the external library's av_channel_layout_from_mask: a zero mask is
rejected with AVERROR(EINVAL), leaving the layout untouched; a nonzero mask
yields a native-order layout whose mask is the argument and whose channel
count is its population count. Returns the resulting layout and the status. -/
def av_channel_layout_from_mask (cl : AVChannelLayout) (mask : Nat) :
    AVChannelLayout × Int :=
  if mask = 0 then (cl, AVERROR_EINVAL)
  else ({ order := ChOrder.native, nb_channels := (popcount64 mask : Int),
          mask := mask }, 0)

/-- Models the external library's av_get_default_channel_layout (legacy API):
the canonical mask for a channel count, 0 when none exists. -/
def av_get_default_channel_layout (nb : Int) : Nat :=
  defaultChannelMask nb

/- ============================================================
   Compile-time version dispatch.
   `some g` means the preprocessor selects generation `g`; `none` would model
   a preprocessor #error, i.e. a build failure.  The source ends each chain
   with an unconditional #else, so every version selects some generation.
   ============================================================ -/

/-- Branch selection of ffctx_set_channels / ffctx_set_channel_layout /
ffctx_get_channels / ffctx_get_channel_layout over
(LIBAVCODEC_VERSION_MAJOR, LIBAVCODEC_VERSION_MINOR). -/
def ctxChannelGen (major minor : Nat) : Option Gen :=
  if 60 ≤ major then some Gen.current
  else if 59 ≤ major ∧ 24 ≤ minor then some Gen.current
  else some Gen.legacy

/-- Branch selection of the frame channel accessors over
(LIBAVUTIL_VERSION_MAJOR, LIBAVUTIL_VERSION_MINOR). -/
def frameChannelGen (major minor : Nat) : Option Gen :=
  if 58 ≤ major then some Gen.current
  else if 57 ≤ major ∧ 24 ≤ minor then some Gen.current
  else some Gen.legacy

/-- Branch selection of ffframe_set_key_frame / ffframe_get_key_frame over
LIBAVUTIL_VERSION_MAJOR. -/
def frameKeyGen (major : Nat) : Option Gen :=
  if 59 ≤ major then some Gen.current
  else some Gen.legacy

/- ============================================================
   AVCodecContext and its accessors.
   Only the fields touched by the modelled accessors are carried.
   Both generations' channel fields are present in the model; a real build
   compiles exactly one of them, selected by the `Gen` parameter.
   The `hw_device_ctx` / `hw_frames_ctx` fields hold the identity of the
   underlying refcounted buffer (`none` = NULL).
   ============================================================ -/

structure AVCodecContext where
  width : Int
  height : Int
  qmin : Int
  qmax : Int
  time_base : AVRational
  framerate : AVRational
  sample_rate : Int
  sample_fmt : Int
  channels : Int
  channel_layout : Nat
  ch_layout : AVChannelLayout
  hw_device_ctx : Option Nat
  hw_frames_ctx : Option Nat
deriving Repr

def ffctx_set_width (ctx : AVCodecContext) (width : Int) : AVCodecContext :=
  { ctx with width := width }

def ffctx_get_width (ctx : AVCodecContext) : Int :=
  ctx.width

def ffctx_set_height (ctx : AVCodecContext) (height : Int) : AVCodecContext :=
  { ctx with height := height }

def ffctx_get_height (ctx : AVCodecContext) : Int :=
  ctx.height

def ffctx_set_qmin (ctx : AVCodecContext) (qmin : Int) : AVCodecContext :=
  { ctx with qmin := qmin }

def ffctx_get_qmin (ctx : AVCodecContext) : Int :=
  ctx.qmin

def ffctx_set_qmax (ctx : AVCodecContext) (qmax : Int) : AVCodecContext :=
  { ctx with qmax := qmax }

def ffctx_get_qmax (ctx : AVCodecContext) : Int :=
  ctx.qmax

/-- ffctx_set_time_base writes both rational components in one call. -/
def ffctx_set_time_base (ctx : AVCodecContext) (num den : Int) : AVCodecContext :=
  { ctx with time_base := { num := num, den := den } }

/-- ffctx_get_time_base reads both rational components in one call (the C
function returns them through out-pointers, modelled as a pair). -/
def ffctx_get_time_base (ctx : AVCodecContext) : Int × Int :=
  (ctx.time_base.num, ctx.time_base.den)

def ffctx_set_framerate (ctx : AVCodecContext) (num den : Int) : AVCodecContext :=
  { ctx with framerate := { num := num, den := den } }

def ffctx_get_framerate (ctx : AVCodecContext) : Int × Int :=
  (ctx.framerate.num, ctx.framerate.den)

def ffctx_set_sample_rate (ctx : AVCodecContext) (sample_rate : Int) : AVCodecContext :=
  { ctx with sample_rate := sample_rate }

def ffctx_get_sample_rate (ctx : AVCodecContext) : Int :=
  ctx.sample_rate

def ffctx_set_sample_fmt (ctx : AVCodecContext) (sample_fmt : Int) : AVCodecContext :=
  { ctx with sample_fmt := sample_fmt }

def ffctx_get_sample_fmt (ctx : AVCodecContext) : Int :=
  ctx.sample_fmt

/-- ffctx_set_channels: current generation delegates to
av_channel_layout_default; legacy stores the count and mirrors the default
mask into channel_layout. -/
def ffctx_set_channels (g : Gen) (ctx : AVCodecContext) (channels : Int) :
    AVCodecContext :=
  match g with
  | Gen.current => { ctx with ch_layout := av_channel_layout_default channels }
  | Gen.legacy =>
      { ctx with channels := channels,
                 channel_layout := av_get_default_channel_layout channels }

/-- ffctx_get_channels: current generation reads ch_layout.nb_channels;
legacy reads the dedicated count field. -/
def ffctx_get_channels (g : Gen) (ctx : AVCodecContext) : Int :=
  match g with
  | Gen.current => ctx.ch_layout.nb_channels
  | Gen.legacy => ctx.channels

/-- ffctx_set_channel_layout: current generation delegates to
av_channel_layout_from_mask (status discarded, as in the source); legacy
stores the mask and mirrors its population count into channels. -/
def ffctx_set_channel_layout (g : Gen) (ctx : AVCodecContext) (mask : Nat) :
    AVCodecContext :=
  match g with
  | Gen.current =>
      { ctx with ch_layout := (av_channel_layout_from_mask ctx.ch_layout mask).1 }
  | Gen.legacy =>
      { ctx with channel_layout := mask, channels := (popcount64 mask : Int) }

/-- ffctx_get_channel_layout: current generation returns the stored mask when
the order is native, otherwise the mask of the default canonical layout for
the descriptor's channel count; legacy returns the stored mask field. -/
def ffctx_get_channel_layout (g : Gen) (ctx : AVCodecContext) : Nat :=
  match g with
  | Gen.current =>
      if ctx.ch_layout.order = ChOrder.native then ctx.ch_layout.mask
      else (av_channel_layout_default ctx.ch_layout.nb_channels).mask
  | Gen.legacy => ctx.channel_layout

/-- Models av_buffer_unref on a reference-holding field of the external
library: decrement the underlying buffer's reference count and clear the
field. Returns the cleared field and the updated count map. -/
def bufUnref (field : Option Nat) (rc : Nat → Int) :
    Option Nat × (Nat → Int) :=
  match field with
  | none => (none, rc)
  | some b => (none, fun i => if i = b then rc i - 1 else rc i)

/-- Models av_buffer_ref of the external library: a fresh reference to the
same underlying buffer, incrementing its reference count (the allocation of
the AVBufferRef wrapper is modelled as always succeeding). -/
def bufRef (b : Nat) (rc : Nat → Int) : Nat → Int :=
  fun i => if i = b then rc i + 1 else rc i

/-- ffctx_set_hw_device_ctx: release any previously held reference, then, for
a non-NULL argument, store a freshly acquired reference to its buffer.
`rc` is the external reference-count state, threaded explicitly. -/
def ffctx_set_hw_device_ctx (ctx : AVCodecContext) (rc : Nat → Int)
    (hw_device_ctx : Option Nat) : AVCodecContext × (Nat → Int) :=
  let released := bufUnref ctx.hw_device_ctx rc
  match hw_device_ctx with
  | some b => ({ ctx with hw_device_ctx := some b }, bufRef b released.2)
  | none => ({ ctx with hw_device_ctx := released.1 }, released.2)

/-- ffctx_set_hw_frames_ctx: identical discipline on the hw_frames_ctx
field. -/
def ffctx_set_hw_frames_ctx (ctx : AVCodecContext) (rc : Nat → Int)
    (hw_frames_ctx : Option Nat) : AVCodecContext × (Nat → Int) :=
  let released := bufUnref ctx.hw_frames_ctx rc
  match hw_frames_ctx with
  | some b => ({ ctx with hw_frames_ctx := some b }, bufRef b released.2)
  | none => ({ ctx with hw_frames_ctx := released.1 }, released.2)

/- ============================================================
   AVFrame and its accessors.
   `data` / `linesize` are the fixed-size AV_NUM_DATA_POINTERS arrays;
   `extended_data` models the separately allocated pointer array (`none` =
   NULL pointer, `some arr` = an allocation of `arr.length` entries).
   `flags` models the 32-bit int flags word as a Nat below 2^32.
   ============================================================ -/

structure AVFrame where
  width : Int
  height : Int
  format : Int
  pts : Int
  duration : Int
  pkt_dts : Int
  time_base : AVRational
  pict_type : Int
  quality : Int
  nb_samples : Int
  sample_rate : Int
  key_frame : Int
  flags : Nat
  data : Fin AV_NUM_DATA_POINTERS → Nat
  linesize : Fin AV_NUM_DATA_POINTERS → Int
  extended_data : Option (List Nat)
  channels : Int
  channel_layout : Nat
  ch_layout : AVChannelLayout

def ffframe_set_width (frame : AVFrame) (width : Int) : AVFrame :=
  { frame with width := width }

def ffframe_get_width (frame : AVFrame) : Int :=
  frame.width

def ffframe_set_height (frame : AVFrame) (height : Int) : AVFrame :=
  { frame with height := height }

def ffframe_get_height (frame : AVFrame) : Int :=
  frame.height

def ffframe_set_format (frame : AVFrame) (format : Int) : AVFrame :=
  { frame with format := format }

def ffframe_get_format (frame : AVFrame) : Int :=
  frame.format

def ffframe_set_pts (frame : AVFrame) (pts : Int) : AVFrame :=
  { frame with pts := pts }

def ffframe_get_pts (frame : AVFrame) : Int :=
  frame.pts

def ffframe_set_duration (frame : AVFrame) (duration : Int) : AVFrame :=
  { frame with duration := duration }

def ffframe_get_duration (frame : AVFrame) : Int :=
  frame.duration

def ffframe_set_time_base (frame : AVFrame) (num den : Int) : AVFrame :=
  { frame with time_base := { num := num, den := den } }

def ffframe_get_time_base (frame : AVFrame) : Int × Int :=
  (frame.time_base.num, frame.time_base.den)

def ffframe_set_nb_samples (frame : AVFrame) (nb_samples : Int) : AVFrame :=
  { frame with nb_samples := nb_samples }

def ffframe_get_nb_samples (frame : AVFrame) : Int :=
  frame.nb_samples

def ffframe_set_sample_rate (frame : AVFrame) (sample_rate : Int) : AVFrame :=
  { frame with sample_rate := sample_rate }

def ffframe_get_sample_rate (frame : AVFrame) : Int :=
  frame.sample_rate

/-- ffframe_set_key_frame: current generation sets or clears
AV_FRAME_FLAG_KEY in the flags word (`flags &= ~AV_FRAME_FLAG_KEY` on the
32-bit word is the conjunction with 2^32 - (AV_FRAME_FLAG_KEY + 1)); legacy
writes the dedicated key_frame field. -/
def ffframe_set_key_frame (g : Gen) (frame : AVFrame) (key_frame : Int) :
    AVFrame :=
  match g with
  | Gen.current =>
      if key_frame ≠ 0 then
        { frame with flags := frame.flags ||| AV_FRAME_FLAG_KEY }
      else
        { frame with flags := frame.flags &&& (2 ^ 32 - (AV_FRAME_FLAG_KEY + 1)) }
  | Gen.legacy => { frame with key_frame := key_frame }

/-- ffframe_get_key_frame: current generation tests AV_FRAME_FLAG_KEY
(`(frame->flags & AV_FRAME_FLAG_KEY) != 0`); legacy reads the dedicated
field. -/
def ffframe_get_key_frame (g : Gen) (frame : AVFrame) : Int :=
  match g with
  | Gen.current =>
      if frame.flags &&& AV_FRAME_FLAG_KEY ≠ 0 then 1 else 0
  | Gen.legacy => frame.key_frame

/-- ffframe_data: NULL for a plane index outside [0, AV_NUM_DATA_POINTERS),
otherwise the stored plane pointer. The result is always a defined read. -/
def ffframe_data (frame : AVFrame) (plane : Int) : Option Nat :=
  if h : plane < 0 ∨ (AV_NUM_DATA_POINTERS : Int) ≤ plane then some 0
  else some (frame.data ⟨plane.toNat, by simp [AV_NUM_DATA_POINTERS] at h ⊢; omega⟩)

/-- ffframe_data_const: same body as ffframe_data on a const frame. -/
def ffframe_data_const (frame : AVFrame) (plane : Int) : Option Nat :=
  if h : plane < 0 ∨ (AV_NUM_DATA_POINTERS : Int) ≤ plane then some 0
  else some (frame.data ⟨plane.toNat, by simp [AV_NUM_DATA_POINTERS] at h ⊢; omega⟩)

/-- ffframe_linesize: 0 for a plane index outside the fixed array, otherwise
the stored stride. -/
def ffframe_linesize (frame : AVFrame) (plane : Int) : Option Int :=
  if h : plane < 0 ∨ (AV_NUM_DATA_POINTERS : Int) ≤ plane then some 0
  else some (frame.linesize ⟨plane.toNat, by simp [AV_NUM_DATA_POINTERS] at h ⊢; omega⟩)

/-- ffframe_extended_data_plane: the C body checks only whether the
extended_data pointer itself is NULL and then reads extended_data[plane]
unconditionally; `none` models the out-of-bounds (undefined) read that
results when the index falls outside the pointed-to allocation. -/
def ffframe_extended_data_plane (frame : AVFrame) (plane : Int) : Option Nat :=
  match frame.extended_data with
  | none => some 0
  | some arr =>
      if h : 0 ≤ plane ∧ plane.toNat < arr.length then
        some (arr.get ⟨plane.toNat, h.2⟩)
      else none

/-- ffframe_get_channel_layout: same adapter as ffctx_get_channel_layout, on
the frame's channel fields. -/
def ffframe_get_channel_layout (g : Gen) (frame : AVFrame) : Nat :=
  match g with
  | Gen.current =>
      if frame.ch_layout.order = ChOrder.native then frame.ch_layout.mask
      else (av_channel_layout_default frame.ch_layout.nb_channels).mask
  | Gen.legacy => frame.channel_layout

/- ============================================================
   AVCodecParameters and its accessors.
   `extradata` is `none` for NULL and `some bytes` for an allocation holding
   `bytes`; the extradata setter threads an allocation oracle `allocOk`
   standing for the success of av_mallocz.
   ============================================================ -/

structure AVCodecParameters where
  codec_type : Int
  codec_id : Int
  format : Int
  width : Int
  height : Int
  sample_rate : Int
  extradata : Option (List Nat)
  extradata_size : Int
deriving DecidableEq, Repr

def ffcodecpar_set_width (par : AVCodecParameters) (width : Int) : AVCodecParameters :=
  { par with width := width }

def ffcodecpar_get_width (par : AVCodecParameters) : Int :=
  par.width

def ffcodecpar_set_height (par : AVCodecParameters) (height : Int) : AVCodecParameters :=
  { par with height := height }

def ffcodecpar_get_height (par : AVCodecParameters) : Int :=
  par.height

def ffcodecpar_set_format (par : AVCodecParameters) (format : Int) : AVCodecParameters :=
  { par with format := format }

def ffcodecpar_get_format (par : AVCodecParameters) : Int :=
  par.format

def ffcodecpar_get_extradata (par : AVCodecParameters) : Option (List Nat) :=
  par.extradata

def ffcodecpar_get_extradata_size (par : AVCodecParameters) : Int :=
  par.extradata_size

/-- ffcodecpar_set_extradata: unconditionally free the old extradata and zero
its size, return 0 for a NULL pointer or non-positive size, otherwise copy
`size` bytes into a fresh zero-filled allocation of
size + AV_INPUT_BUFFER_PADDING_SIZE bytes (the memcpy of `size` bytes from
`data` is modelled as `bytes.take size.toNat`; callers must supply at least
`size` readable bytes). `allocOk` models the success of av_mallocz; on
failure the field stays NULL and AVERROR(ENOMEM) is returned. -/
def ffcodecpar_set_extradata (par : AVCodecParameters) (data : Option (List Nat))
    (size : Int) (allocOk : Bool) : AVCodecParameters × Int :=
  let cleared := { par with extradata := none, extradata_size := 0 }
  match data with
  | none => (cleared, 0)
  | some bytes =>
      if size ≤ 0 then (cleared, 0)
      else if allocOk then
        ({ cleared with
             extradata := some (bytes.take size.toNat ++
               List.replicate AV_INPUT_BUFFER_PADDING_SIZE 0),
             extradata_size := size }, 0)
      else (cleared, AVERROR_ENOMEM)

/- ============================================================
   Concrete example values used by witnesses and counterexamples.
   ============================================================ -/

def cl0 : AVChannelLayout :=
  { order := ChOrder.unspec, nb_channels := 0, mask := 0 }

def ctx0 : AVCodecContext :=
  { width := 0, height := 0, qmin := 0, qmax := 0,
    time_base := { num := 0, den := 1 }, framerate := { num := 0, den := 1 },
    sample_rate := 0, sample_fmt := 0, channels := 0, channel_layout := 0,
    ch_layout := cl0, hw_device_ctx := none, hw_frames_ctx := none }

def frame0 : AVFrame :=
  { width := 0, height := 0, format := 0, pts := 0, duration := 0,
    pkt_dts := 0, time_base := { num := 0, den := 1 }, pict_type := 0,
    quality := 0, nb_samples := 0, sample_rate := 0, key_frame := 0,
    flags := 5, data := fun _ => 0, linesize := fun _ => 0,
    extended_data := some (List.replicate AV_NUM_DATA_POINTERS 0),
    channels := 0, channel_layout := 0, ch_layout := cl0 }

def par0 : AVCodecParameters :=
  { codec_type := 0, codec_id := 0, format := 0, width := 0, height := 0,
    sample_rate := 0, extradata := some [7], extradata_size := 1 }

/- ============================================================
   Claim theorems.
   ============================================================ -/

/-- C9: for every scalar field F with both a setter and a getter (geometry,
quantiser bounds, sample parameters, and the rational pairs written as one
(num, den) call), set_F followed by get_F returns the value passed, for every
struct state, under every library-version configuration (none of these
accessors has any version variance). -/
theorem scalar_set_get_roundtrip (ctx : AVCodecContext) (frame : AVFrame)
    (par : AVCodecParameters) (v num den : Int) :
    ffctx_get_width (ffctx_set_width ctx v) = v ∧
    ffctx_get_height (ffctx_set_height ctx v) = v ∧
    ffctx_get_qmin (ffctx_set_qmin ctx v) = v ∧
    ffctx_get_qmax (ffctx_set_qmax ctx v) = v ∧
    ffctx_get_sample_rate (ffctx_set_sample_rate ctx v) = v ∧
    ffctx_get_sample_fmt (ffctx_set_sample_fmt ctx v) = v ∧
    ffctx_get_time_base (ffctx_set_time_base ctx num den) = (num, den) ∧
    ffctx_get_framerate (ffctx_set_framerate ctx num den) = (num, den) ∧
    ffframe_get_width (ffframe_set_width frame v) = v ∧
    ffframe_get_height (ffframe_set_height frame v) = v ∧
    ffframe_get_format (ffframe_set_format frame v) = v ∧
    ffframe_get_pts (ffframe_set_pts frame v) = v ∧
    ffframe_get_duration (ffframe_set_duration frame v) = v ∧
    ffframe_get_nb_samples (ffframe_set_nb_samples frame v) = v ∧
    ffframe_get_sample_rate (ffframe_set_sample_rate frame v) = v ∧
    ffframe_get_time_base (ffframe_set_time_base frame num den) = (num, den) ∧
    ffcodecpar_get_width (ffcodecpar_set_width par v) = v ∧
    ffcodecpar_get_height (ffcodecpar_set_height par v) = v ∧
    ffcodecpar_get_format (ffcodecpar_set_format par v) = v :=
  ⟨rfl, rfl, rfl, rfl, rfl, rfl, rfl, rfl, rfl, rfl, rfl, rfl, rfl, rfl, rfl,
   rfl, rfl, rfl, rfl⟩

/-- C4: ffctx_set_channels(n) followed by ffctx_get_channels() returns n,
under both the legacy and the current layout generation (the current
generation stores n in ch_layout.nb_channels through
av_channel_layout_default, whose both branches carry the requested count). -/
theorem channels_set_get_roundtrip (g : Gen) (ctx : AVCodecContext) (n : Int) :
    ffctx_get_channels g (ffctx_set_channels g ctx n) = n := by
  cases g
  · show (av_channel_layout_default n).nb_channels = n
    unfold av_channel_layout_default
    split <;> rfl
  · rfl

/-- C3: for every nonzero 64-bit mask (a zero mask encodes no layout and is
rejected by av_channel_layout_from_mask), ffctx_set_channel_layout(mask)
followed by ffctx_get_channel_layout() returns exactly mask, under both the
legacy and the current layout generation. -/
theorem channel_layout_set_get_roundtrip (g : Gen) (ctx : AVCodecContext)
    (mask : Nat) (hmask : mask ≠ 0) (h64 : mask < 2 ^ 64) :
    ffctx_get_channel_layout g (ffctx_set_channel_layout g ctx mask) = mask := by
  cases g
  · simp [ffctx_get_channel_layout, ffctx_set_channel_layout,
          av_channel_layout_from_mask, hmask]
  · rfl

/-- Closed instance of channel_layout_set_get_roundtrip at the stereo mask
under the current generation. -/
theorem channel_layout_set_get_roundtrip_witness :
    (3 : Nat) ≠ 0 ∧ (3 : Nat) < 2 ^ 64 ∧
    ffctx_get_channel_layout Gen.current
      (ffctx_set_channel_layout Gen.current ctx0 3) = 3 :=
  ⟨by norm_num, by norm_num,
   channel_layout_set_get_roundtrip Gen.current ctx0 3 (by norm_num) (by norm_num)⟩

/-- C5: under the current layout generation, the channel-layout-mask getters
(ffctx_get_channel_layout, ffframe_get_channel_layout) return the stored
bitmask verbatim when the descriptor's order is native, and otherwise the
bitmask of the library's default canonical layout for the descriptor's
channel count. -/
theorem channel_layout_mask_observation (ctx : AVCodecContext) (frame : AVFrame) :
    (ctx.ch_layout.order = ChOrder.native →
       ffctx_get_channel_layout Gen.current ctx = ctx.ch_layout.mask) ∧
    (ctx.ch_layout.order ≠ ChOrder.native →
       ffctx_get_channel_layout Gen.current ctx =
         (av_channel_layout_default ctx.ch_layout.nb_channels).mask) ∧
    (frame.ch_layout.order = ChOrder.native →
       ffframe_get_channel_layout Gen.current frame = frame.ch_layout.mask) ∧
    (frame.ch_layout.order ≠ ChOrder.native →
       ffframe_get_channel_layout Gen.current frame =
         (av_channel_layout_default frame.ch_layout.nb_channels).mask) := by
  refine ⟨?_, ?_, ?_, ?_⟩ <;> intro h <;>
    simp [ffctx_get_channel_layout, ffframe_get_channel_layout, h]

/-- Closed instance of channel_layout_mask_observation: ctx0 carries an
unspec-order descriptor, so the getter falls back to the default canonical
mask for its channel count. -/
theorem channel_layout_mask_observation_witness :
    ctx0.ch_layout.order ≠ ChOrder.native ∧
    ffctx_get_channel_layout Gen.current ctx0 =
      (av_channel_layout_default ctx0.ch_layout.nb_channels).mask :=
  ⟨by decide, (channel_layout_mask_observation ctx0 frame0).2.1 (by decide)⟩

/-- C8: ffcodecpar_set_extradata with a NULL data pointer or non-positive
size frees any existing extradata, leaves the field empty with size 0, and
returns 0; with valid data and positive size it copies the bytes into fresh
padded storage (the prior allocation having been freed) and returns 0; a
negative return happens only on allocation failure, and is AVERROR(ENOMEM). -/
theorem set_extradata_contract (par : AVCodecParameters) (data : Option (List Nat))
    (size : Int) (allocOk : Bool) :
    ((data = none ∨ size ≤ 0) →
       ffcodecpar_set_extradata par data size allocOk =
         ({ par with extradata := none, extradata_size := 0 }, 0)) ∧
    (∀ bytes, data = some bytes → 0 < size → allocOk = true →
       ffcodecpar_set_extradata par data size allocOk =
         ({ par with
              extradata := some (bytes.take size.toNat ++
                List.replicate AV_INPUT_BUFFER_PADDING_SIZE 0),
              extradata_size := size }, 0)) ∧
    ((ffcodecpar_set_extradata par data size allocOk).2 < 0 →
       allocOk = false ∧
       (ffcodecpar_set_extradata par data size allocOk).2 = AVERROR_ENOMEM) := by
  refine ⟨?_, ?_, ?_⟩
  · rintro (rfl | hsize)
    · rfl
    · cases data with
      | none => rfl
      | some bytes => simp [ffcodecpar_set_extradata, hsize]
  · rintro bytes rfl hpos rfl
    simp [ffcodecpar_set_extradata, not_le.mpr hpos]
  · intro hneg
    cases data with
    | none => simp [ffcodecpar_set_extradata] at hneg
    | some bytes =>
        by_cases hs : size ≤ 0
        · simp [ffcodecpar_set_extradata, hs] at hneg
        · cases allocOk with
          | false => exact ⟨rfl, by simp [ffcodecpar_set_extradata, hs]⟩
          | true => simp [ffcodecpar_set_extradata, hs] at hneg

/-- Closed instance of set_extradata_contract: a successful two-byte copy. -/
theorem set_extradata_contract_witness :
    ffcodecpar_set_extradata par0 (some [1, 2]) 2 true =
      ({ par0 with
           extradata := some (([1, 2] : List Nat).take (2 : Int).toNat ++
             List.replicate AV_INPUT_BUFFER_PADDING_SIZE 0),
           extradata_size := 2 }, 0) :=
  (set_extradata_contract par0 (some [1, 2]) 2 true).2.1 [1, 2] rfl (by norm_num) rfl

/-- C10: when ffcodecpar_set_extradata fails to allocate, the struct is left
in the consistent empty state (extradata NULL, extradata_size 0) with the
negative AVERROR(ENOMEM) status — the previous extradata has already been
freed, so the error is not atomic, but no stale pointer or size remains. -/
theorem set_extradata_alloc_failure (par : AVCodecParameters) (bytes : List Nat)
    (size : Int) (hpos : 0 < size) :
    ffcodecpar_set_extradata par (some bytes) size false =
      ({ par with extradata := none, extradata_size := 0 }, AVERROR_ENOMEM) ∧
    AVERROR_ENOMEM < 0 := by
  constructor
  · simp [ffcodecpar_set_extradata, not_le.mpr hpos]
  · norm_num [AVERROR_ENOMEM]

/-- Closed instance of set_extradata_alloc_failure on par0, which holds
previous extradata that the failing call clears. -/
theorem set_extradata_alloc_failure_witness :
    ffcodecpar_set_extradata par0 (some [9]) 1 false =
      ({ par0 with extradata := none, extradata_size := 0 }, AVERROR_ENOMEM) :=
  (set_extradata_alloc_failure par0 [9] 1 (by norm_num)).1

/-- A frame whose extended_data points at a 16-entry plane array holding
non-null pointers, as planar audio with 16 channels produces. -/
def frame1 : AVFrame :=
  { frame0 with extended_data := some (List.replicate 16 7) }

/-- C1 counterexample: at plane index 9 — at/beyond AV_NUM_DATA_POINTERS —
ffframe_extended_data_plane on frame1 returns the stored pointer 7, not the
null sentinel: the C body checks only the extended_data pointer for NULL and
performs no index check at all. -/
theorem extended_data_plane_no_index_check :
    ffframe_extended_data_plane frame1 9 ≠ some 0 := by
  decide

/-- C1 (amended): for every plane index that is negative or at/beyond
AV_NUM_DATA_POINTERS, ffframe_data, ffframe_data_const and ffframe_linesize
return the null/zero sentinel without reading the arrays; but
ffframe_extended_data_plane performs no index check: it returns NULL only
when the extended_data pointer itself is NULL, and otherwise reads
extended_data[plane] unconditionally — a defined read of the stored pointer
inside the allocation, an undefined read outside it. -/
theorem plane_index_sentinel (frame : AVFrame) (plane : Int)
    (h : plane < 0 ∨ (AV_NUM_DATA_POINTERS : Int) ≤ plane) :
    ffframe_data frame plane = some 0 ∧
    ffframe_data_const frame plane = some 0 ∧
    ffframe_linesize frame plane = some 0 ∧
    (frame.extended_data = none →
       ffframe_extended_data_plane frame plane = some 0) ∧
    (∀ arr, frame.extended_data = some arr →
       ∀ hin : 0 ≤ plane ∧ plane.toNat < arr.length,
         ffframe_extended_data_plane frame plane = some (arr.get ⟨plane.toNat, hin.2⟩)) ∧
    (∀ arr, frame.extended_data = some arr →
       ¬(0 ≤ plane ∧ plane.toNat < arr.length) →
         ffframe_extended_data_plane frame plane = none) := by
  refine ⟨?_, ?_, ?_, ?_, ?_, ?_⟩
  · rw [ffframe_data, dif_pos h]
  · rw [ffframe_data_const, dif_pos h]
  · rw [ffframe_linesize, dif_pos h]
  · intro hnone
    simp [ffframe_extended_data_plane, hnone]
  · intro arr harr hin
    simp [ffframe_extended_data_plane, harr, hin]
  · intro arr harr hout
    simp [ffframe_extended_data_plane, harr, hout]

/-- Closed instance of plane_index_sentinel: plane 9 on frame0 yields the
null sentinel from the bounds-checked data accessor. -/
theorem plane_index_sentinel_witness :
    ffframe_data frame0 9 = some 0 :=
  (plane_index_sentinel frame0 9 (by norm_num [AV_NUM_DATA_POINTERS])).1

/-- C2 counterexample: libavcodec version (59, 23) satisfies neither explicit
current-generation guard of the ffctx channel accessors, yet the selection
silently compiles the legacy branch instead of failing the build; the same
holds for the key-frame dispatch at libavutil major 58. -/
theorem version_dispatch_silent_default :
    (¬ 60 ≤ 59 ∧ ¬ (59 ≤ 59 ∧ 24 ≤ 23) ∧
       ctxChannelGen 59 23 = some Gen.legacy ∧ ctxChannelGen 59 23 ≠ none) ∧
    (¬ 59 ≤ 58 ∧ frameKeyGen 58 = some Gen.legacy ∧ frameKeyGen 58 ≠ none) := by
  decide

/-- C2 (amended): the version selection is a total choice over all version
values — a version matching one of the explicit guards selects the current
generation, and every other version silently selects the legacy generation
through the unconditional #else default; compilation never fails for any
major/minor pair. -/
theorem version_dispatch_total (major minor : Nat) :
    ctxChannelGen major minor =
      some (if 60 ≤ major ∨ (59 ≤ major ∧ 24 ≤ minor) then Gen.current
            else Gen.legacy) ∧
    frameChannelGen major minor =
      some (if 58 ≤ major ∨ (57 ≤ major ∧ 24 ≤ minor) then Gen.current
            else Gen.legacy) ∧
    frameKeyGen major =
      some (if 59 ≤ major then Gen.current else Gen.legacy) := by
  refine ⟨?_, ?_, ?_⟩ <;>
    simp only [ctxChannelGen, frameChannelGen, frameKeyGen] <;>
    split_ifs <;> simp_all <;> omega

/-- Bits of the 32-bit complement mask ~AV_FRAME_FLAG_KEY: set exactly at the
in-word positions other than bit 1. -/
theorem clear_mask_testBit (i : Nat) :
    Nat.testBit (2 ^ 32 - (AV_FRAME_FLAG_KEY + 1)) i =
      (decide (i < 32) && !Nat.testBit AV_FRAME_FLAG_KEY i) :=
  Nat.testBit_two_pow_sub_succ (by norm_num [AV_FRAME_FLAG_KEY]) i

/-- The key-frame flag has only bit 1 set. -/
theorem key_flag_testBit (i : Nat) :
    Nat.testBit AV_FRAME_FLAG_KEY i = decide (1 = i) := by
  have h : AV_FRAME_FLAG_KEY = 2 ^ 1 := rfl
  rw [h, Nat.testBit_two_pow]

/-- C6: for every frame state, ffframe_set_key_frame(1) then
ffframe_set_key_frame(0) leaves every flag bit other than the key-frame bit
(bit 1) and every non-flags field unchanged under the current generation,
and every field other than key_frame unchanged under the legacy generation;
and ffframe_get_key_frame observes the boolean last set under both
generations. -/
theorem key_frame_adapter (g : Gen) (frame : AVFrame)
    (hflags : frame.flags < 2 ^ 32) :
    (g = Gen.current →
       (∀ i, i ≠ 1 →
          (ffframe_set_key_frame g (ffframe_set_key_frame g frame 1) 0).flags.testBit i
            = frame.flags.testBit i) ∧
       { ffframe_set_key_frame g (ffframe_set_key_frame g frame 1) 0 with
           flags := frame.flags } = frame) ∧
    (g = Gen.legacy →
       { ffframe_set_key_frame g (ffframe_set_key_frame g frame 1) 0 with
           key_frame := frame.key_frame } = frame) ∧
    ffframe_get_key_frame g (ffframe_set_key_frame g frame 1) = 1 ∧
    ffframe_get_key_frame g
      (ffframe_set_key_frame g (ffframe_set_key_frame g frame 1) 0) = 0 := by
  cases g with
  | legacy =>
      refine ⟨?_, ?_, ?_, ?_⟩
      · intro h
        exact absurd h (by decide)
      · intro _
        rfl
      · rfl
      · rfl
  | current =>
      have hflags2 :
          (ffframe_set_key_frame Gen.current
            (ffframe_set_key_frame Gen.current frame 1) 0).flags =
            (frame.flags ||| AV_FRAME_FLAG_KEY) &&&
              (2 ^ 32 - (AV_FRAME_FLAG_KEY + 1)) := rfl
      refine ⟨fun _ => ⟨?_, rfl⟩, fun h => absurd h (by decide), ?_, ?_⟩
      · intro i hi
        rw [hflags2, Nat.testBit_and, Nat.testBit_or, clear_mask_testBit,
            key_flag_testBit]
        by_cases h32 : i < 32
        · simp [h32, Ne.symm hi]
        · have hhi : frame.flags.testBit i = false :=
            Nat.testBit_lt_two_pow
              (lt_of_lt_of_le hflags (Nat.pow_le_pow_right (by norm_num) (by omega)))
          simp [h32, hhi, Ne.symm hi]
      · show ffframe_get_key_frame Gen.current
          (ffframe_set_key_frame Gen.current frame 1) = 1
        have hbit : ((frame.flags ||| AV_FRAME_FLAG_KEY) &&& AV_FRAME_FLAG_KEY) ≠ 0 := by
          intro h0
          have h1 : ((frame.flags ||| AV_FRAME_FLAG_KEY) &&&
              AV_FRAME_FLAG_KEY).testBit 1 = true := by
            rw [Nat.testBit_and, Nat.testBit_or, key_flag_testBit]
            simp
          rw [h0] at h1
          simp [Nat.zero_testBit] at h1
        simp [ffframe_get_key_frame, ffframe_set_key_frame, hbit]
      · show ffframe_get_key_frame Gen.current
          (ffframe_set_key_frame Gen.current
            (ffframe_set_key_frame Gen.current frame 1) 0) = 0
        have hzero :
            (((frame.flags ||| AV_FRAME_FLAG_KEY) &&&
                (2 ^ 32 - (AV_FRAME_FLAG_KEY + 1))) &&& AV_FRAME_FLAG_KEY) = 0 := by
          apply Nat.eq_of_testBit_eq
          intro i
          rw [Nat.testBit_and, Nat.testBit_and, Nat.testBit_or,
              clear_mask_testBit, key_flag_testBit]
          rcases eq_or_ne i 1 with rfl | hi
          · simp
          · simp [Ne.symm hi, Nat.zero_testBit]
        show (if (ffframe_set_key_frame Gen.current
            (ffframe_set_key_frame Gen.current frame 1) 0).flags &&&
              AV_FRAME_FLAG_KEY ≠ 0 then (1 : Int) else 0) = 0
        rw [hflags2, hzero]
        simp

/-- Closed instance of key_frame_adapter on frame0 (flags 5) under the
current generation. -/
theorem key_frame_adapter_witness :
    frame0.flags < 2 ^ 32 ∧
    ffframe_get_key_frame Gen.current
      (ffframe_set_key_frame Gen.current frame0 1) = 1 :=
  ⟨by norm_num [frame0], (key_frame_adapter Gen.current frame0 (by norm_num [frame0])).2.2.1⟩

/-- C7: ffctx_set_hw_device_ctx and ffctx_set_hw_frames_ctx release any
previously held reference before acquiring the new one (the old buffer's
count drops by one), acquire the new reference by incrementing its count
rather than taking ownership, treat a NULL argument as a clear, and — for a
buffer b1 the field did not already hold — a second setter call that does
not re-supply b1 restores b1's reference count to exactly its value before
the first call. -/
theorem hw_ctx_ref_discipline (ctx : AVCodecContext) (rc : Nat → Int)
    (b1 : Nat) (arg2 : Option Nat)
    (hdev : ctx.hw_device_ctx ≠ some b1) (hfr : ctx.hw_frames_ctx ≠ some b1)
    (harg : arg2 ≠ some b1) :
    ((ffctx_set_hw_device_ctx ctx rc (some b1)).1.hw_device_ctx = some b1) ∧
    ((ffctx_set_hw_device_ctx ctx rc (some b1)).2 b1 = rc b1 + 1) ∧
    (∀ b0, ctx.hw_device_ctx = some b0 →
       (ffctx_set_hw_device_ctx ctx rc (some b1)).2 b0 = rc b0 - 1) ∧
    ((ffctx_set_hw_device_ctx
        (ffctx_set_hw_device_ctx ctx rc (some b1)).1
        (ffctx_set_hw_device_ctx ctx rc (some b1)).2 arg2).2 b1 = rc b1) ∧
    ((ffctx_set_hw_device_ctx
        (ffctx_set_hw_device_ctx ctx rc (some b1)).1
        (ffctx_set_hw_device_ctx ctx rc (some b1)).2 none).1.hw_device_ctx = none) ∧
    ((ffctx_set_hw_frames_ctx ctx rc (some b1)).1.hw_frames_ctx = some b1) ∧
    ((ffctx_set_hw_frames_ctx ctx rc (some b1)).2 b1 = rc b1 + 1) ∧
    (∀ b0, ctx.hw_frames_ctx = some b0 →
       (ffctx_set_hw_frames_ctx ctx rc (some b1)).2 b0 = rc b0 - 1) ∧
    ((ffctx_set_hw_frames_ctx
        (ffctx_set_hw_frames_ctx ctx rc (some b1)).1
        (ffctx_set_hw_frames_ctx ctx rc (some b1)).2 arg2).2 b1 = rc b1) ∧
    ((ffctx_set_hw_frames_ctx
        (ffctx_set_hw_frames_ctx ctx rc (some b1)).1
        (ffctx_set_hw_frames_ctx ctx rc (some b1)).2 none).1.hw_frames_ctx = none) := by
  have hunref_dev : (bufUnref ctx.hw_device_ctx rc).2 b1 = rc b1 := by
    rcases hc : ctx.hw_device_ctx with _ | b0
    · rfl
    · have hb : b1 ≠ b0 := fun h => hdev (by rw [hc, h])
      simp [bufUnref, hb]
  have hunref_fr : (bufUnref ctx.hw_frames_ctx rc).2 b1 = rc b1 := by
    rcases hc : ctx.hw_frames_ctx with _ | b0
    · rfl
    · have hb : b1 ≠ b0 := fun h => hfr (by rw [hc, h])
      simp [bufUnref, hb]
  refine ⟨rfl, ?_, ?_, ?_, rfl, rfl, ?_, ?_, ?_, rfl⟩
  · show bufRef b1 (bufUnref ctx.hw_device_ctx rc).2 b1 = rc b1 + 1
    simp [bufRef, hunref_dev]
  · intro b0 hb0
    have hb : b0 ≠ b1 := fun h => hdev (by rw [hb0, h])
    show bufRef b1 (bufUnref ctx.hw_device_ctx rc).2 b0 = rc b0 - 1
    simp [bufRef, bufUnref, hb0, hb]
  · have hrc1 : (ffctx_set_hw_device_ctx ctx rc (some b1)).2 b1 = rc b1 + 1 := by
      show bufRef b1 (bufUnref ctx.hw_device_ctx rc).2 b1 = rc b1 + 1
      simp [bufRef, hunref_dev]
    rcases harg2 : arg2 with _ | b2
    · show (bufUnref (some b1) (ffctx_set_hw_device_ctx ctx rc (some b1)).2).2 b1 = rc b1
      simp [bufUnref, hrc1]
    · have hb : b1 ≠ b2 := fun h => harg (by rw [harg2, h])
      show bufRef b2
          (bufUnref (some b1) (ffctx_set_hw_device_ctx ctx rc (some b1)).2).2 b1 = rc b1
      simp [bufRef, bufUnref, hb, hrc1]
  · show bufRef b1 (bufUnref ctx.hw_frames_ctx rc).2 b1 = rc b1 + 1
    simp [bufRef, hunref_fr]
  · intro b0 hb0
    have hb : b0 ≠ b1 := fun h => hfr (by rw [hb0, h])
    show bufRef b1 (bufUnref ctx.hw_frames_ctx rc).2 b0 = rc b0 - 1
    simp [bufRef, bufUnref, hb0, hb]
  · have hrc1 : (ffctx_set_hw_frames_ctx ctx rc (some b1)).2 b1 = rc b1 + 1 := by
      show bufRef b1 (bufUnref ctx.hw_frames_ctx rc).2 b1 = rc b1 + 1
      simp [bufRef, hunref_fr]
    rcases harg2 : arg2 with _ | b2
    · show (bufUnref (some b1) (ffctx_set_hw_frames_ctx ctx rc (some b1)).2).2 b1 = rc b1
      simp [bufUnref, hrc1]
    · have hb : b1 ≠ b2 := fun h => harg (by rw [harg2, h])
      show bufRef b2
          (bufUnref (some b1) (ffctx_set_hw_frames_ctx ctx rc (some b1)).2).2 b1 = rc b1
      simp [bufRef, bufUnref, hb, hrc1]

/-- Closed instance of hw_ctx_ref_discipline: setting buffer 1 and then
buffer 2 on ctx0 leaves buffer 1's reference count at its original 5. -/
theorem hw_ctx_ref_discipline_witness :
    (ffctx_set_hw_device_ctx
       (ffctx_set_hw_device_ctx ctx0 (fun _ => 5) (some 1)).1
       (ffctx_set_hw_device_ctx ctx0 (fun _ => 5) (some 1)).2 (some 2)).2 1 = 5 :=
  (hw_ctx_ref_discipline ctx0 (fun _ => 5) 1 (some 2)
    (by decide) (by decide) (by decide)).2.2.2.1
